import Mathlib

/-!
Verification of the connectivity/session lifecycle engine in
`src/main.cpp` of the Discord-Voice-Status-ESP firmware.

The embedding models Arduino `String` values as `List Char`, machine
timestamps (`millis()`, `uint32_t`) as `Nat` with explicit `% 2^32`
arithmetic, and external collaborators (ArduinoJson parsing, the HTTP
update transport, the LittleFS store, WiFiManager) as parameters or as
recorded effects.  All definitions are translated from the source file;
the ghost `ConnState` field mirrors the session phase the source logs at
each transition.
-/

/-- WS reconnect pacing interval, `WS_RECONNECT_MS` in the source. -/
def WS_RECONNECT_MS : Nat := 5000

/-- Auth failure threshold, `MAX_AUTH_FAILURES` in the source. -/
def MAX_AUTH_FAILURES : Nat := 3

/-- Characters accepted by C `isspace`, used by Arduino `String::trim`. -/
def isSpaceCh (c : Char) : Bool :=
  c = ' ' || c = '\t' || c = '\n' || c = '\x0b' || c = '\x0c' || c = '\r'

/-- Arduino `String::trim`: strip leading and trailing `isspace` characters. -/
def trimL (cs : List Char) : List Char :=
  ((cs.dropWhile isSpaceCh).reverse.dropWhile isSpaceCh).reverse

/-- Arduino `String::startsWith`. -/
def startsWithL (pre cs : List Char) : Bool :=
  pre.isPrefixOf cs

/-- Index of the first occurrence of a character, Arduino `String::indexOf`
(the source's `-1` sentinel becomes `none`). -/
def idxOf (cs : List Char) (c : Char) : Option Nat :=
  match cs with
  | [] => none
  | a :: r => if a = c then some 0 else (idxOf r c).map (· + 1)

/-- Accumulate decimal digits until the first non-digit, as C `atol` does
after sign handling. -/
def digitsVal : List Char → Int → Int
  | c :: r, acc => if c.isDigit then digitsVal r (10 * acc + (c.toNat - 48 : Nat)) else acc
  | [], acc => acc

/-- C `atol`, the backend of Arduino `String::toInt`: skip leading spaces,
optional sign, then decimal digits up to the first non-digit (0 if none). -/
def atol (cs : List Char) : Int :=
  match cs.dropWhile isSpaceCh with
  | '-' :: r => - digitsVal r 0
  | '+' :: r => digitsVal r 0
  | r => digitsVal r 0

/-- Parsed WebSocket endpoint, struct `WsParts` in the source. -/
structure WsParts where
  secure : Bool
  host : List Char
  port : Nat
  path : List Char
deriving Repr, DecidableEq

/-- Scheme recognition of `parseWsUrl`: `wss://` maps to secure, `ws://` to
insecure, anything else is a parse error. -/
def schemeSplit (u : List Char) : Option (Bool × List Char) :=
  if startsWithL "wss://".data u then some (true, u.drop 6)
  else if startsWithL "ws://".data u then some (false, u.drop 5)
  else none

/-- Split of the scheme remainder at the first `/` into host-port and path;
with no `/` the path defaults to `"/"` (lines 168-170 of the source). -/
def splitSlash (u : List Char) : List Char × List Char :=
  match idxOf u '/' with
  | some i => (u.take i, u.drop i)
  | none => (u, "/".data)

/-- Host and port extraction from the host-port portion (lines 172-185):
split at the first `:` found by `indexOf`; the port text goes through
`toInt` and must land in `[1, 65535]`; with no `:` the port defaults to
443 (secure) or 80 (insecure). -/
def parseHostPort (secure : Bool) (hostPort : List Char) : Option (List Char × Nat) :=
  match idxOf hostPort ':' with
  | some c =>
    let p := atol (hostPort.drop (c + 1))
    if p ≤ 0 ∨ 65535 < p then none
    else some (hostPort.take c, p.toNat)
  | none => some (hostPort, if secure then 443 else 80)

/-- Path normalization at the end of `parseWsUrl` (lines 189-190). -/
def normalizePath (p : List Char) : List Char :=
  if startsWithL "/".data p then p else '/' :: p

/-- The endpoint parser `parseWsUrl` (lines 150-192): trim, recognize the
scheme, split host-port from path, parse the port, reject an empty host,
normalize the path. -/
def parseWsUrl (url : List Char) : Option WsParts :=
  match schemeSplit (trimL url) with
  | none => none
  | some (secure, rest) =>
    match parseHostPort secure (splitSlash rest).1 with
    | none => none
    | some (host, port) =>
      if host = [] then none
      else some { secure := secure, host := host, port := port,
                  path := normalizePath (splitSlash rest).2 }

/-- Characterization of `idxOf`: it returns the index of the first
occurrence of the character. -/
theorem idxOf_first (cs : List Char) (c : Char) (i : Nat) (h : idxOf cs c = some i) :
    cs[i]? = some c ∧ ∀ j, j < i → cs[j]? ≠ some c := by
  induction cs generalizing i with
  | nil => simp [idxOf] at h
  | cons a r ih =>
    by_cases hac : a = c
    · simp [idxOf, hac] at h
      subst h
      simp [hac]
    · simp [idxOf, hac] at h
      obtain ⟨k, hk, hki⟩ := h
      subst hki
      obtain ⟨h1, h2⟩ := ih k hk
      refine ⟨by simpa using h1, ?_⟩
      intro j hj
      cases j with
      | zero => simpa using hac
      | succ j =>
        have := h2 j (by omega)
        simpa using this

/-- Every port produced by the host-port stage lies in `[1, 65535]`. -/
theorem parseHostPort_bounds (secure : Bool) (hp : List Char) (host : List Char)
    (port : Nat) (h : parseHostPort secure hp = some (host, port)) :
    1 ≤ port ∧ port ≤ 65535 := by
  unfold parseHostPort at h
  cases hc : idxOf hp ':' with
  | some i =>
    rw [hc] at h
    simp only at h
    split at h
    · exact absurd h (by simp)
    · simp only [Option.some.injEq, Prod.mk.injEq] at h
      obtain ⟨-, hport⟩ := h
      subst hport
      omega
  | none =>
    rw [hc] at h
    simp only [Option.some.injEq, Prod.mk.injEq] at h
    obtain ⟨-, hport⟩ := h
    subst hport
    cases secure <;> simp

/-- The normalized path always starts with `/`. -/
theorem normalizePath_starts (p : List Char) :
    startsWithL "/".data (normalizePath p) = true := by
  unfold normalizePath
  split
  · assumption
  · simp [startsWithL, List.isPrefixOf]

/-- C6: the endpoint parser maps `"ws://device.example:9000/control"` to
`{secure := false, host := "device.example", port := 9000, path := "/control"}`
and `"wss://svc.example"` to
`{secure := true, host := "svc.example", port := 443, path := "/"}`. -/
theorem parseWsUrl_scenarios :
    parseWsUrl "ws://device.example:9000/control".data =
      some ⟨false, "device.example".data, 9000, "/control".data⟩ ∧
    parseWsUrl "wss://svc.example".data =
      some ⟨true, "svc.example".data, 443, "/".data⟩ := by
  constructor <;> decide

/-- C5: on every input on which `parseWsUrl` succeeds, the endpoint is
well-formed: the port lies in `[1, 65535]`, the host is non-empty, and
the path starts with `"/"`.  The 443/80 port defaults and the `"/"` path
default are the `none` branches of `parseHostPort` and `splitSlash`,
exercised concretely by the second scenario of `parseWsUrl_scenarios`. -/
theorem parseWsUrl_wellformed (url : List Char) (parts : WsParts)
    (h : parseWsUrl url = some parts) :
    (1 ≤ parts.port ∧ parts.port ≤ 65535) ∧ parts.host ≠ [] ∧
    startsWithL "/".data parts.path = true := by
  unfold parseWsUrl at h
  cases hs : schemeSplit (trimL url) with
  | none => rw [hs] at h; simp at h
  | some pr =>
    obtain ⟨sec, rest⟩ := pr
    rw [hs] at h
    simp only at h
    cases hhp : parseHostPort sec (splitSlash rest).1 with
    | none => rw [hhp] at h; simp at h
    | some hpp =>
      obtain ⟨host, port⟩ := hpp
      rw [hhp] at h
      simp only at h
      by_cases hh : host = []
      · simp [hh] at h
      · rw [if_neg hh] at h
        simp only [Option.some.injEq] at h
        subst h
        exact ⟨parseHostPort_bounds sec (splitSlash rest).1 host port hhp, hh,
               normalizePath_starts (splitSlash rest).2⟩

/-- C5 witness: `parseWsUrl_wellformed` applied to the concrete input
`"ws://h/p"`. -/
theorem parseWsUrl_wellformed_witness :
    (1 ≤ (80 : Nat) ∧ (80 : Nat) ≤ 65535) ∧ "h".data ≠ [] ∧
    startsWithL "/".data "/p".data = true := by
  have := parseWsUrl_wellformed "ws://h/p".data ⟨false, "h".data, 80, "/p".data⟩ (by decide)
  simpa using this

/-- C4 counterexample: on `"ws://a:1:2/p"` the host-port part `"a:1:2"`
contains two colons; the parser succeeds with host `"a"` and port `1`,
i.e. a split at the first colon, not host `"a:1"` and port `2` as a split
at the last colon would give. -/
theorem parseWsUrl_last_colon_counterexample :
    parseWsUrl "ws://a:1:2/p".data = some ⟨false, "a".data, 1, "/p".data⟩ ∧
    "a".data ≠ "a:1".data ∧ (1 : Nat) ≠ 2 := by
  refine ⟨by decide, by decide, by decide⟩

/-- C4 (amended): the host-port portion is split at the FIRST `:` found by
`indexOf`: whenever `idxOf` locates the first colon at index `i` and the
stage succeeds, the host is everything before index `i` and the port is
the `atol` value of everything after it (no colon occurs before `i`). -/
theorem parseHostPort_split_first_colon (secure : Bool) (hp : List Char) (i : Nat)
    (host : List Char) (port : Nat)
    (hi : idxOf hp ':' = some i)
    (h : parseHostPort secure hp = some (host, port)) :
    host = hp.take i ∧ (port : Int) = atol (hp.drop (i + 1)) ∧
    ∀ j, j < i → hp[j]? ≠ some ':' := by
  unfold parseHostPort at h
  rw [hi] at h
  simp only at h
  split at h
  · exact absurd h (by simp)
  · simp only [Option.some.injEq, Prod.mk.injEq] at h
    obtain ⟨h1, h2⟩ := h
    subst h1
    subst h2
    refine ⟨rfl, by omega, fun j hj => (idxOf_first hp ':' i hi).2 j hj⟩

/-- C4 witness: `parseHostPort_split_first_colon` applied to the concrete
host-port part `"a:1:2"`. -/
theorem parseHostPort_split_first_colon_witness :
    "a".data = "a:1:2".data.take 1 ∧
    ((1 : Nat) : Int) = atol ("a:1:2".data.drop 2) ∧
    ∀ j, j < 1 → "a:1:2".data[j]? ≠ some ':' := by
  have := parseHostPort_split_first_colon false "a:1:2".data 1 "a".data 1
    (by decide) (by decide)
  simpa using this

/-- Fields extracted from a structured OTA message by ArduinoJson in
`maybeHandleOtaMessage` (lines 636-642): each missing field defaults to
the empty string, exactly as `doc["k"] | ""` does. -/
structure OtaDoc where
  otaType : List Char
  url : List Char
  md5 : List Char
  chip : List Char
deriving Repr, DecidableEq

/-- Observable effects of one `maybeHandleOtaMessage` call: its boolean
result, the `(url, md5)` handed to the update transport (if any), whether
`webSocket.disconnect()` ran and whether `setLed(false)` ran — the three
actions of `performOtaUpdate` (lines 487-498). -/
structure OtaOutcome where
  matched : Bool
  otaCall : Option (List Char × List Char)
  teardown : Bool
  ledOff : Bool
deriving Repr, DecidableEq

/-- Outcome with no side effects, returning `m` to the caller. -/
def otaSilent (m : Bool) : OtaOutcome :=
  { matched := m, otaCall := none, teardown := false, ledOff := false }

/-- Effects of `performOtaUpdate` (lines 487-613) up to the external HTTP
transport: disconnect the WebSocket, switch the LED off, and delegate the
URL plus optional MD5 to the update transport.  A successful update
restarts the device inside the transport, which is outside this core. -/
def performOtaUpdate (url md5 : List Char) : OtaOutcome :=
  { matched := true, otaCall := some (url, md5), teardown := true, ledOff := true }

/-- The update dispatcher `maybeHandleOtaMessage` (lines 615-674).
`jsonOta` stands for ArduinoJson `deserializeJson` plus field extraction
(`none` on parse failure); `chipId` is the compile-time identity
(`"esp8266"` or `"esp32"`).  The source checks `msg.length() > 0 &&
msg[0] == '{'` before parsing, which is `msg.head? = some '{'` here. -/
def maybeHandleOtaMessage (jsonOta : List Char → Option OtaDoc) (chipId : List Char)
    (msg : List Char) : OtaOutcome :=
  if startsWithL "OTA:".data msg then
    if trimL (msg.drop 4) = [] then otaSilent false
    else performOtaUpdate (trimL (msg.drop 4)) []
  else if msg.head? = some '{' then
    match jsonOta msg with
    | none => otaSilent false
    | some doc =>
      if doc.otaType ≠ "ota".data then otaSilent false
      else if doc.chip ≠ [] ∧ doc.chip ≠ chipId then otaSilent true
      else if trimL doc.url = [] then otaSilent true
      else performOtaUpdate (trimL doc.url) (trimL doc.md5)
  else otaSilent false

/-- Ghost session phase, the `ConnectionState` of the specification; the
source logs the corresponding transition at each point. -/
inductive ConnState
  | idle
  | connecting
  | sessionOpen
  | authenticated
deriving Repr, DecidableEq

/-- Session-level state touched by the WebSocket event handler: the
`authFailureCount` global, the LED output, the ghost connection phase,
and counters of `startConfigPortalAndSave` / `setupWebSocketFromConfig`
invocations plus the list of update-transport calls. -/
structure SessionState where
  authFailureCount : Nat
  connState : ConnState
  led : Bool
  reconfigCount : Nat
  setupCount : Nat
  otaCalls : List (List Char × List Char)
deriving Repr, DecidableEq

/-- Effect of `startConfigPortalAndSave` on the session state: one
reconfiguration cycle (the portal itself is the external WiFiManager). -/
def startConfigPortalAndSave (st : SessionState) : SessionState :=
  { st with reconfigCount := st.reconfigCount + 1 }

/-- Effect of `setupWebSocketFromConfig` (lines 678-778) on the session
state: `authFailureCount = 0` (line 699) and a fresh connection attempt. -/
def setupWebSocketFromConfig (st : SessionState) : SessionState :=
  { st with
    authFailureCount := 0, connState := ConnState.connecting,
    setupCount := st.setupCount + 1 }

/-- Apply the recorded effects of one dispatcher call to the session
state: teardown drops the session, `setLed(false)` clears the LED, and a
transport delegation is appended to the call log. -/
def applyOta (o : OtaOutcome) (st : SessionState) : SessionState :=
  { st with
    connState := if o.teardown then ConnState.idle else st.connState,
    led := if o.ledOff then false else st.led,
    otaCalls := match o.otaCall with
      | some uc => st.otaCalls ++ [uc]
      | none => st.otaCalls }

/-- The `WStype_TEXT` case of the WebSocket event handler (lines 724-752):
trim the frame, offer it to the update dispatcher first, then interpret
`OK`, `NOAUTH` (with escalation at `MAX_AUTH_FAILURES`), and the actuator
tokens `1` / `0`. -/
def onTextMessage (jsonOta : List Char → Option OtaDoc) (chipId : List Char)
    (st : SessionState) (msg : List Char) : SessionState :=
  let s := trimL msg
  let ota := maybeHandleOtaMessage jsonOta chipId s
  if ota.matched then applyOta ota st
  else if s = "OK".data then
    { st with authFailureCount := 0, connState := ConnState.authenticated }
  else if s = "NOAUTH".data then
    if MAX_AUTH_FAILURES ≤ st.authFailureCount + 1 then
      setupWebSocketFromConfig (startConfigPortalAndSave
        { st with authFailureCount := 0, connState := ConnState.sessionOpen })
    else
      { st with
        authFailureCount := st.authFailureCount + 1,
        connState := ConnState.sessionOpen }
  else if s = "1".data then { st with led := true }
  else if s = "0".data then { st with led := false }
  else st

/-- Session state right after the `WStype_CONNECTED` event (lines
708-715): counter cleared, session open, AUTH sent. -/
def connectedInit : SessionState :=
  { authFailureCount := 0, connState := ConnState.sessionOpen, led := false,
    reconfigCount := 0, setupCount := 0, otaCalls := [] }

/-- Delivery of `n` consecutive `NOAUTH` frames to the text handler. -/
def noauthSeq (jsonOta : List Char → Option OtaDoc) (chipId : List Char) :
    Nat → SessionState → SessionState
  | 0, st => st
  | n + 1, st => noauthSeq jsonOta chipId n (onTextMessage jsonOta chipId st "NOAUTH".data)

/-- JSON model returning `none` on every message, for concrete runs where
no structured payload occurs. -/
def jsonOtaNone : List Char → Option OtaDoc := fun _ => none

/-- C1: delivering `n ≤ MAX_AUTH_FAILURES` consecutive rejection tokens to
the freshly connected session handler triggers no reconfiguration and
leaves the counter at `n` while `n < MAX_AUTH_FAILURES`; at exactly
`MAX_AUTH_FAILURES` rejections, reconfiguration is triggered exactly once
and the counter is 0 immediately after. -/
theorem noauth_escalation (jsonOta : List Char → Option OtaDoc) (chipId : List Char)
    (n : Nat) (h : n ≤ MAX_AUTH_FAILURES) :
    (noauthSeq jsonOta chipId n connectedInit).reconfigCount
        = (if n < MAX_AUTH_FAILURES then 0 else 1) ∧
    (noauthSeq jsonOta chipId n connectedInit).authFailureCount
        = (if n < MAX_AUTH_FAILURES then n else 0) := by
  have h3 : n ≤ 3 := h
  interval_cases n <;> exact ⟨rfl, rfl⟩

/-- C1 witness: three consecutive `NOAUTH` frames with
`MAX_AUTH_FAILURES = 3` trigger exactly one reconfiguration and reset the
counter. -/
theorem noauth_escalation_witness :
    (noauthSeq jsonOtaNone "esp32".data 3 connectedInit).reconfigCount = 1 ∧
    (noauthSeq jsonOtaNone "esp32".data 3 connectedInit).authFailureCount = 0 := by
  have := noauth_escalation jsonOtaNone "esp32".data 3 (by decide)
  simpa using this

/-- C2: at any counter value (any session state), the acknowledgment token
`OK` resets the auth-failure counter to 0 and moves the session to the
authenticated phase; every other component of the state is unchanged. -/
theorem ok_resets_and_authenticates (jsonOta : List Char → Option OtaDoc)
    (chipId : List Char) (st : SessionState) :
    onTextMessage jsonOta chipId st "OK".data =
      { st with authFailureCount := 0, connState := ConnState.authenticated } := rfl

/-- C8: a simple-prefixed update message whose URL is empty after trimming
is not treated as an update request: the dispatcher reports no match and
produces no effects (lines 618-623 return `false` before
`performOtaUpdate`). -/
theorem ota_empty_url_no_match (jsonOta : List Char → Option OtaDoc)
    (chipId : List Char) (rest : List Char) (h : trimL rest = []) :
    maybeHandleOtaMessage jsonOta chipId ("OTA:".data ++ rest) = otaSilent false := by
  have hpre : startsWithL "OTA:".data ("OTA:".data ++ rest) = true := by
    simp [startsWithL, List.isPrefixOf]
  have hdrop : ("OTA:".data ++ rest).drop 4 = rest := rfl
  unfold maybeHandleOtaMessage
  rw [hpre, hdrop, h]
  simp

/-- C8 witness: the exact message `"OTA:"` is reported as no match. -/
theorem ota_empty_url_no_match_witness :
    maybeHandleOtaMessage jsonOtaNone "esp32".data "OTA:".data = otaSilent false := by
  have := ota_empty_url_no_match jsonOtaNone "esp32".data [] (by decide)
  simpa using this

/-- C7: a structured update message whose hardware tag is present,
non-empty and different from the running hardware's identity is
acknowledged as handled (`true`) with zero side effects: no transport
invocation, no session teardown, no LED change, and the session state is
left entirely unchanged (lines 644-656). -/
theorem ota_chip_mismatch_no_effects (jsonOta : List Char → Option OtaDoc)
    (chipId rest : List Char) (doc : OtaDoc) (st : SessionState)
    (hp : jsonOta ('{' :: rest) = some doc)
    (ht : doc.otaType = "ota".data)
    (hc : doc.chip ≠ [])
    (hm : doc.chip ≠ chipId) :
    maybeHandleOtaMessage jsonOta chipId ('{' :: rest) = otaSilent true ∧
    applyOta (maybeHandleOtaMessage jsonOta chipId ('{' :: rest)) st = st := by
  have hpre : startsWithL "OTA:".data ('{' :: rest) = false := by
    simp [startsWithL, List.isPrefixOf]
  have hres : maybeHandleOtaMessage jsonOta chipId ('{' :: rest) = otaSilent true := by
    unfold maybeHandleOtaMessage
    rw [hpre]
    simp only [Bool.false_eq_true, if_false, List.head?_cons, Option.some.injEq, if_pos rfl]
    rw [hp]
    simp [ht, hc, hm]
  exact ⟨hres, by rw [hres]; rfl⟩

/-- Concrete ArduinoJson model mapping the scenario message
`{"type":"ota","url":"https://x/y","chip":"other-target"}` to its field
extraction and failing on everything else. -/
def jsonOtaMismatch : List Char → Option OtaDoc := fun m =>
  if m = "\x7b\"type\":\"ota\",\"url\":\"https://x/y\",\"chip\":\"other-target\"\x7d".data
  then some ⟨"ota".data, "https://x/y".data, [], "other-target".data⟩
  else none

/-- C7 witness: the scenario message with chip tag `"other-target"` on an
`"esp32"` device is consumed with zero side effects. -/
theorem ota_chip_mismatch_no_effects_witness :
    maybeHandleOtaMessage jsonOtaMismatch "esp32".data
      "\x7b\"type\":\"ota\",\"url\":\"https://x/y\",\"chip\":\"other-target\"\x7d".data
      = otaSilent true ∧
    applyOta (maybeHandleOtaMessage jsonOtaMismatch "esp32".data
      "\x7b\"type\":\"ota\",\"url\":\"https://x/y\",\"chip\":\"other-target\"\x7d".data)
      connectedInit = connectedInit := by
  have := ota_chip_mismatch_no_effects jsonOtaMismatch "esp32".data
    "\"type\":\"ota\",\"url\":\"https://x/y\",\"chip\":\"other-target\"\x7d".data
    ⟨"ota".data, "https://x/y".data, [], "other-target".data⟩ connectedInit
    (by decide) (by decide) (by decide) (by decide)
  simpa using this

/-- C10: a structured message that parses with type `"ota"` but whose URL
field is empty after trimming is reported as matched — consuming it, so
it never reaches the OK/NOAUTH/actuator token handling — while initiating
no update and no teardown (lines 663-667 return `true`); by contrast the
simple prefixed form with an empty URL reports no match. -/
theorem ota_json_empty_url_consumed (jsonOta : List Char → Option OtaDoc)
    (chipId rest : List Char) (doc : OtaDoc)
    (hp : jsonOta ('{' :: rest) = some doc)
    (ht : doc.otaType = "ota".data)
    (hu : trimL doc.url = []) :
    maybeHandleOtaMessage jsonOta chipId ('{' :: rest) = otaSilent true ∧
    (maybeHandleOtaMessage jsonOta chipId "OTA:".data).matched = false := by
  have hpre : startsWithL "OTA:".data ('{' :: rest) = false := by
    simp [startsWithL, List.isPrefixOf]
  refine ⟨?_, rfl⟩
  unfold maybeHandleOtaMessage
  rw [hpre]
  simp only [Bool.false_eq_true, if_false, List.head?_cons, Option.some.injEq, if_pos rfl]
  rw [hp]
  by_cases hc : doc.chip ≠ [] ∧ doc.chip ≠ chipId
  · simp [ht, hc]
  · simp [ht, hc, hu]

/-- Concrete ArduinoJson model mapping `{"type":"ota"}` (no URL field, so
the extraction defaults to the empty string) and failing elsewhere. -/
def jsonOtaNoUrl : List Char → Option OtaDoc := fun m =>
  if m = "\x7b\"type\":\"ota\"\x7d".data
  then some ⟨"ota".data, [], [], []⟩
  else none

/-- C10 witness: the message `{"type":"ota"}` is consumed with no update
and no teardown, while `"OTA:"` is not matched. -/
theorem ota_json_empty_url_consumed_witness :
    maybeHandleOtaMessage jsonOtaNoUrl "esp32".data "\x7b\"type\":\"ota\"\x7d".data
      = otaSilent true ∧
    (maybeHandleOtaMessage jsonOtaNoUrl "esp32".data "OTA:".data).matched = false := by
  have := ota_json_empty_url_consumed jsonOtaNoUrl "esp32".data
    "\"type\":\"ota\"\x7d".data ⟨"ota".data, [], [], []⟩
    (by decide) (by decide) (by decide)
  simpa using this

/-- Modulus of the 32-bit `millis()` / `uint32_t` arithmetic. -/
def U32 : Nat := 4294967296

/-- The C expression `now - lastWsAttemptMs` on `uint32_t` operands. -/
def sub32 (a b : Nat) : Nat := (a % U32 + U32 - b % U32) % U32

/-- State read and written by the reconnect pacing in `loop`. -/
structure LoopState where
  lastWsAttemptMs : Nat
deriving Repr, DecidableEq

/-- Result of one `loop` iteration: the updated pacing clock and how many
times `setupWebSocketFromConfig` was invoked during the tick. -/
structure TickResult where
  state : LoopState
  setupCalls : Nat
deriving Repr, DecidableEq

/-- One iteration of `loop` (lines 1021-1103) restricted to the reconnect
logic, with no serial input pending.  When WiFi is down the recovery
block (lines 1035-1090) runs its credential chain and then calls
`setupWebSocketFromConfig()` unconditionally at line 1089; afterwards the
manual pacing check (lines 1094-1100) re-invokes setup only when the
socket is down and `now - lastWsAttemptMs >= WS_RECONNECT_MS` in 32-bit
arithmetic, stamping the clock with `now`. -/
def loopTick (wifiConnected wsConnected : Bool) (now : Nat) (s : LoopState) : TickResult :=
  let wifiCalls : Nat := if wifiConnected then 0 else 1
  if wsConnected = false ∧ WS_RECONNECT_MS ≤ sub32 now s.lastWsAttemptMs then
    { state := { lastWsAttemptMs := now % U32 }, setupCalls := wifiCalls + 1 }
  else { state := s, setupCalls := wifiCalls }

/-- C3 counterexample: a paced attempt at `now = 6000` stamps the clock;
on the very next tick at `now = 6005`, with WiFi down, the loss-recovery
path issues another session-setup invocation although only 5 ms of the
5000 ms interval have elapsed since the prior attempt. -/
theorem reconnect_pacing_counterexample :
    (loopTick false false 6000 ⟨0⟩).state.lastWsAttemptMs = 6000 ∧
    1 ≤ (loopTick false false 6005 ⟨6000⟩).setupCalls ∧
    sub32 6005 6000 < WS_RECONNECT_MS := by
  refine ⟨by decide, by decide, by decide⟩

/-- C3 (amended): while the WiFi link is up, no reconnect attempt is
issued before `now - lastWsAttemptMs >= WS_RECONNECT_MS` in 32-bit
arithmetic, and every paced attempt stamps the clock with `now`; when the
WiFi link is down, the loss-recovery path re-invokes session setup
unconditionally, bypassing the pacing clock. -/
theorem reconnect_pacing (wifi ws : Bool) (now : Nat) (s : LoopState) :
    (wifi = true → 1 ≤ (loopTick wifi ws now s).setupCalls →
      ws = false ∧ WS_RECONNECT_MS ≤ sub32 now s.lastWsAttemptMs ∧
      (loopTick wifi ws now s).state.lastWsAttemptMs = now % U32) ∧
    (wifi = false → 1 ≤ (loopTick wifi ws now s).setupCalls) := by
  constructor
  · intro hw hcalls
    subst hw
    by_cases hcond : ws = false ∧ WS_RECONNECT_MS ≤ sub32 now s.lastWsAttemptMs
    · refine ⟨hcond.1, hcond.2, ?_⟩
      simp [loopTick, if_pos hcond]
    · exfalso
      simp [loopTick, if_neg hcond] at hcalls
  · intro hw
    subst hw
    by_cases hcond : ws = false ∧ WS_RECONNECT_MS ≤ sub32 now s.lastWsAttemptMs
    · simp [loopTick, if_pos hcond]
    · simp [loopTick, if_neg hcond]

/-- C3 witness: with WiFi up, the paced attempt at `now = 6000` from a
clock stamped at 0 satisfies the guard and stamps the clock. -/
theorem reconnect_pacing_witness :
    (false = false ∧ WS_RECONNECT_MS ≤ sub32 6000 0 ∧
      (loopTick true false 6000 ⟨0⟩).state.lastWsAttemptMs = 6000 % U32) ∧
    1 ≤ (loopTick false false 100 ⟨0⟩).setupCalls :=
  ⟨(reconnect_pacing true false 6000 ⟨0⟩).1 rfl (by decide),
   (reconnect_pacing false false 100 ⟨0⟩).2 rfl⟩

/-- The in-memory configuration record, struct `AppConfig` in the source. -/
structure AppConfig where
  wsUrl : List Char
  authToken : List Char
  eapIdentity : List Char
  eapPassword : List Char
deriving Repr, DecidableEq

/-- Fields extracted from a `CONFIG:` JSON payload by ArduinoJson in
`handleSerialCommand` (lines 793-812): `some` for each key the document
contains (`containsKey`), with its `as<String>` value. -/
structure CfgDoc where
  wsUrl : Option (List Char)
  authToken : Option (List Char)
  eapIdentity : Option (List Char)
  eapPassword : Option (List Char)
deriving Repr, DecidableEq

/-- Overlay of the present keys of a `CONFIG:` payload onto the record,
as the four `containsKey` blocks do. -/
def applyCfgDoc (d : CfgDoc) (c : AppConfig) : AppConfig :=
  { wsUrl := d.wsUrl.getD c.wsUrl,
    authToken := d.authToken.getD c.authToken,
    eapIdentity := d.eapIdentity.getD c.eapIdentity,
    eapPassword := d.eapPassword.getD c.eapPassword }

/-- The `changed` flag of the CONFIG branch: set when the payload contains
at least one recognized key. -/
def cfgDocChanged (d : CfgDoc) : Bool :=
  d.wsUrl.isSome || d.authToken.isSome || d.eapIdentity.isSome || d.eapPassword.isSome

/-- Observable effects of one `handleSerialCommand` call: serial reply
lines, the record handed to `saveConfig` (if any), whether `ESP.restart()`
ran, and whether the config portal was started. -/
structure SerialOutcome where
  lines : List (List Char)
  saved : Option AppConfig
  restart : Bool
  portal : Bool
deriving Repr, DecidableEq

/-- The serial administrative command handler `handleSerialCommand`
(lines 781-862).  `jparse` stands for ArduinoJson `deserializeJson` plus
per-key extraction (`none` on parse failure).  The serialized `GET_CONFIG`
reply body (external ArduinoJson serialization, secrets redacted in the
source) is abstracted as the marker line `"CONFIG:<redacted>"`; the
`PORTAL` branch additionally re-runs the session setup after the portal,
an effect summarized by the `portal` flag. -/
def handleSerialCommand (jparse : List Char → Option CfgDoc) (cfg : AppConfig)
    (cmd : List Char) : SerialOutcome :=
  if startsWithL "CONFIG:".data cmd then
    match jparse (cmd.drop 7) with
    | some d =>
      if cfgDocChanged d then
        { lines := ["OK:CONFIG_SAVED".data, "OK:REBOOTING".data],
          saved := some (applyCfgDoc d cfg), restart := true, portal := false }
      else
        { lines := ["OK:NO_CHANGES".data], saved := none, restart := false,
          portal := false }
    | none =>
      { lines := ["ERR:INVALID_JSON".data], saved := none, restart := false,
        portal := false }
  else if cmd = "GET_CONFIG".data then
    { lines := ["CONFIG:<redacted>".data], saved := none, restart := false,
      portal := false }
  else if cmd = "REBOOT".data then
    { lines := ["OK:REBOOTING".data], saved := none, restart := true,
      portal := false }
  else if cmd = "PORTAL".data then
    { lines := ["OK:STARTING_PORTAL".data], saved := none, restart := false,
      portal := true }
  else if cmd = "PING".data then
    { lines := ["PONG".data], saved := none, restart := false, portal := false }
  else
    { lines := [], saved := none, restart := false, portal := false }

/-- Empty configuration record, the boot value before defaults overlay. -/
def cfg0 : AppConfig := ⟨[], [], [], []⟩

/-- Concrete ArduinoJson model mapping the payload `{}` to a valid
document with no recognized keys and failing on everything else. -/
def jparseEmpty : List Char → Option CfgDoc := fun s =>
  if s = "\x7b\x7d".data then some ⟨none, none, none, none⟩ else none

/-- C9 counterexample: the command `CONFIG:{}` carries a payload that
parses as valid JSON but contains none of the four recognized keys; the
handler replies `OK:NO_CHANGES` — neither `OK:CONFIG_SAVED` nor
`ERR:INVALID_JSON` — saving nothing and not restarting, a third outcome
the claim excludes. -/
theorem config_two_outcomes_counterexample :
    handleSerialCommand jparseEmpty cfg0 "CONFIG:\x7b\x7d".data =
      { lines := ["OK:NO_CHANGES".data], saved := none, restart := false,
        portal := false } ∧
    "OK:NO_CHANGES".data ≠ "OK:CONFIG_SAVED".data ∧
    "OK:NO_CHANGES".data ≠ "ERR:INVALID_JSON".data := by
  refine ⟨by decide, by decide, by decide⟩

/-- C9 (amended): a `CONFIG:<json>` command has exactly three outcomes:
`OK:CONFIG_SAVED` followed by `OK:REBOOTING` with the overlaid record
saved and a restart, when the payload parses and contains at least one
recognized key; `OK:NO_CHANGES` with nothing saved and no restart, when
it parses but contains none; `ERR:INVALID_JSON` with nothing saved and no
restart, when parsing fails. -/
theorem config_command_outcomes (jparse : List Char → Option CfgDoc)
    (cfg : AppConfig) (rest : List Char) :
    (jparse rest = none →
      handleSerialCommand jparse cfg ("CONFIG:".data ++ rest) =
        { lines := ["ERR:INVALID_JSON".data], saved := none, restart := false,
          portal := false }) ∧
    (∀ d, jparse rest = some d → cfgDocChanged d = true →
      handleSerialCommand jparse cfg ("CONFIG:".data ++ rest) =
        { lines := ["OK:CONFIG_SAVED".data, "OK:REBOOTING".data],
          saved := some (applyCfgDoc d cfg), restart := true, portal := false }) ∧
    (∀ d, jparse rest = some d → cfgDocChanged d = false →
      handleSerialCommand jparse cfg ("CONFIG:".data ++ rest) =
        { lines := ["OK:NO_CHANGES".data], saved := none, restart := false,
          portal := false }) := by
  have hpre : startsWithL "CONFIG:".data ("CONFIG:".data ++ rest) = true := by
    simp [startsWithL, List.isPrefixOf]
  have hdrop : ("CONFIG:".data ++ rest).drop 7 = rest := rfl
  refine ⟨?_, ?_, ?_⟩
  · intro hn
    unfold handleSerialCommand
    rw [hpre, hdrop, hn]
    simp
  · intro d hd hc
    unfold handleSerialCommand
    rw [hpre, hdrop, hd]
    simp [hc]
  · intro d hd hc
    unfold handleSerialCommand
    rw [hpre, hdrop, hd]
    simp [hc]

/-- C9 witness: `config_command_outcomes` applied to the concrete command
`CONFIG:{}` under the concrete JSON model `jparseEmpty`. -/
theorem config_command_outcomes_witness :
    handleSerialCommand jparseEmpty cfg0 ("CONFIG:".data ++ "\x7b\x7d".data) =
      { lines := ["OK:NO_CHANGES".data], saved := none, restart := false,
        portal := false } :=
  (config_command_outcomes jparseEmpty cfg0 "\x7b\x7d".data).2.2
    ⟨none, none, none, none⟩ (by decide) (by decide)
